import Mathlib

/-!
Verification of the hiking-navigator core (src/app.js).

The development shallowly embeds the geospatial/statistics core of the
application: the JSON track ingestion (`loadTrackData`), the statistics
routine (`updateStats`), the elevation-chart cumulative distances
(`drawElevationChartDistances`), the great-circle distance
(`haversineDistance`), the nearest-vertex distance (`getDistanceToTrail`)
and the GPS position-update transition (`onPositionUpdate`).

JavaScript numbers are modelled exactly: JSON literals as rationals, and
the float arithmetic of the distance functions as real arithmetic (the
claims under study are about exact values, not rounding).  Fallible
JavaScript evaluation (property access on `null`/`undefined`, calling
`.map` on a non-function) is modelled with `Except`.
-/

namespace HikingNav

/-- A parsed JSON-like value as produced by `JSON.parse`, extended with
`undefined` for JavaScript `undefined` (the result of reading an absent
property or array index).  Numbers are modelled as rationals. -/
inductive Json where
  | undefined : Json
  | null : Json
  | bool (b : Bool) : Json
  | num (q : ℚ) : Json
  | str (s : String) : Json
  | arr (elems : List Json) : Json
  | obj (fields : List (String × Json)) : Json

/-- The JavaScript runtime error raised by the modelled operations
(property access on `null`/`undefined`, `.map` of a non-array). -/
inductive JsErr where
  | typeError : JsErr

/-- JavaScript truthiness of a value.  (`NaN` does not arise in the model:
numbers are rationals.) -/
def jsTruthy : Json → Bool
  | .undefined => false
  | .null => false
  | .bool b => b
  | .num q => q != 0
  | .str s => s != ""
  | .arr _ => true
  | .obj _ => true

def kData : String := "data"
def kTrackData : String := "trackData"
def kCoordinates : String := "coordinates"
def kLat : String := "lat"
def kLon : String := "lon"
def kEle : String := "ele"

/-- JavaScript property read `j[k]`: throws on `null`/`undefined`,
returns the field of an object (or `undefined` when absent), and
`undefined` on every other receiver (built-in properties such as
`length` are not named `data`, `trackData`, `coordinates`, `lat`, `lon`
or `ele`, so they never matter here). -/
def getField : Json → String → Except JsErr Json
  | .undefined, _ => .error .typeError
  | .null, _ => .error .typeError
  | .obj fs, k => .ok ((((fs.find? (fun p => p.1 == k)).map Prod.snd)).getD .undefined)
  | _, _ => .ok .undefined

/-- JavaScript index read `j[i]`: throws on `null`/`undefined`, element or
`undefined` for arrays, single-character string for strings, `undefined`
otherwise. -/
def getIdx : Json → Nat → Except JsErr Json
  | .undefined, _ => .error .typeError
  | .null, _ => .error .typeError
  | .arr xs, i => .ok (xs.getD i .undefined)
  | .str s, i => .ok (if i < s.data.length then .str (String.mk [s.data.getD i default]) else .undefined)
  | _, _ => .ok .undefined

/-- One element of the GeoJSON-style mapping in `loadTrackData`
(src/app.js line 209): `c => ({ lon: c[0], lat: c[1], ele: c[2] || 0 })`. -/
def mkCoordPoint (c : Json) : Except JsErr Json :=
  match getIdx c 0, getIdx c 1, getIdx c 2 with
  | .ok lo, .ok la, .ok el =>
      .ok (.obj [(kLon, lo), (kLat, la), (kEle, if jsTruthy el then el else .num 0)])
  | .error e, _, _ => .error e
  | _, .error e, _ => .error e
  | _, _, .error e => .error e

/-- `Array.prototype.map` over the coordinate triples: left to right, the
first thrown error propagates. -/
def mapMPoints : List Json → Except JsErr (List Json)
  | [] => .ok []
  | c :: rest =>
      match mkCoordPoint c, mapMPoints rest with
      | .ok p, .ok ps => .ok (p :: ps)
      | .error e, _ => .error e
      | .ok _, .error e => .error e

/-- The GeoJSON-style branch of `loadTrackData` (src/app.js lines
207-210): `else if (json.coordinates) coords = json.coordinates.map(...)`.
Calling `.map` on a truthy non-array throws a `TypeError`. -/
def coordCoords (json : Json) : Except JsErr (List Json) :=
  match getField json kCoordinates with
  | .error e => .error e
  | .ok c =>
      if jsTruthy c then
        match c with
        | .arr cs => mapMPoints cs
        | _ => .error .typeError
      else .ok []

/-- The first branch condition of `loadTrackData` (src/app.js line 198):
`json.data && json.data.trackData`, with JavaScript short-circuiting. -/
def trackDataCond (json : Json) : Except JsErr Bool :=
  match getField json kData with
  | .error e => .error e
  | .ok d =>
      if jsTruthy d then
        match getField d kTrackData with
        | .error e => .error e
        | .ok td => .ok (jsTruthy td)
      else .ok false

/-- The shape-matching part of `loadTrackData` (src/app.js lines
195-210): resolves the raw coordinate list `coords` (possibly empty), or
throws as the JavaScript would. -/
def resolveCoords (json : Json) : Except JsErr (List Json) :=
  match trackDataCond json with
  | .error e => .error e
  | .ok true =>
      match getField json kData with
      | .error e => .error e
      | .ok d =>
          match getField d kTrackData with
          | .error e => .error e
          | .ok (.arr xs) =>
              if 0 < xs.length then
                match xs with
                | .arr ys :: _ => .ok ys
                | _ => .ok xs
              else .ok []
          | .ok _ => .ok []
  | .ok false =>
      match json with
      | .arr xs => .ok xs
      | _ => coordCoords json

/-- Observable side effects of a load attempt, in invocation order. -/
inductive Effect where
  | alertNoTrack : Effect
  | trackDrawn : Effect
  | statsComputed : Effect
  | chartDrawn : Effect
  | gpsStarted : Effect
deriving DecidableEq

/-- How a call of `loadTrackData` ends: track installed, the
`NoTrackDataFound` alert (src/app.js line 213), or a thrown JavaScript
error that the caller's `try`/`catch` in `processFile` surfaces as a
parse error. -/
inductive LoadOutcome where
  | installed : LoadOutcome
  | noTrackData : LoadOutcome
  | thrown : LoadOutcome
deriving DecidableEq

/-- The mutable application state touched by the core (src/app.js lines
9-20), restricted to the fields the claims are about.  `statsFor` and
`chartFor` record which coordinate list the displayed statistics and
elevation chart were computed from; `distanceIndicator` holds the value
last shown by `updateDistanceIndicator`. -/
structure AppState where
  trackData : List Json
  trackLayer : Option (List Json)
  startMarker : Option Json
  endMarker : Option Json
  statsFor : Option (List Json)
  chartFor : Option (List Json)
  userPosition : Option (ℚ × ℚ × ℚ)
  distanceIndicator : Option (WithTop ℝ)
  gpsWatching : Bool

/-- `loadTrackData` (src/app.js lines 193-244) as a state transition.
On an empty resolved list it alerts and returns before any mutation; on
a thrown error the exception propagates to the caller's catch, again
before any mutation; otherwise it installs the coordinates, redraws the
layers, recomputes statistics and chart, and starts GPS tracking.
The `distanceIndicator` and `userPosition` fields are not touched by the
source function on any path. -/
def loadTrackData (json : Json) (s : AppState) : AppState × LoadOutcome × List Effect :=
  match resolveCoords json with
  | .error _ => (s, .thrown, [])
  | .ok coords =>
      if coords.length = 0 then
        (s, .noTrackData, [.alertNoTrack])
      else
        ({ s with
            trackData := coords
            trackLayer := some coords
            startMarker := coords.head?
            endMarker := coords.getLast?
            statsFor := some coords
            chartFor := some coords
            gpsWatching := true },
          .installed,
          [.trackDrawn, .statsComputed, .chartDrawn, .gpsStarted])

/-- A track point as consumed by the math layer: the `lat`, `lon` and
`ele` numeric fields of an ingested coordinate object. -/
structure Point where
  lat : ℚ
  lon : ℚ
  ele : ℚ

/-- Pure property read used when the GPS callback walks the stored
coordinates (`coord.lat`, `coord.lon` in src/app.js line 517); the stored
coordinates there are non-null objects, so the throwing cases of
`getField` do not arise and absent fields read as `undefined`. -/
def jsGetD (j : Json) (k : String) : Json :=
  match j with
  | .obj fs => (((fs.find? (fun p => p.1 == k)).map Prod.snd)).getD .undefined
  | _ => .undefined

/-- JavaScript numeric coercion restricted to the values the claims
evaluate it on: numbers coerce to themselves, `true` to 1, and the
remaining cases (which would give `NaN` or string parsing in JavaScript)
are not exercised by any theorem below and default to 0. -/
def jsToNum : Json → ℚ
  | .num q => q
  | .bool b => if b then 1 else 0
  | _ => 0

/-- View of a stored coordinate object as a `Point`. -/
def jsonToPoint (j : Json) : Point :=
  { lat := jsToNum (jsGetD j kLat), lon := jsToNum (jsGetD j kLon), ele := jsToNum (jsGetD j kEle) }

/-- `Math.atan2 y x`: the angle of the point `(x, y)`.  Only the
`x > 0` and `x = 0` branches are reachable from `haversineDistance`
(both arguments there are square roots, hence nonnegative). -/
noncomputable def atan2 (y x : ℝ) : ℝ :=
  if 0 < x then Real.arctan (y / x)
  else if x < 0 then
    (if 0 ≤ y then Real.arctan (y / x) + Real.pi else Real.arctan (y / x) - Real.pi)
  else
    (if 0 < y then Real.pi / 2 else if y < 0 then -(Real.pi / 2) else 0)

/-- The intermediate `a` of `haversineDistance` (src/app.js lines
343-345): `sin²(Δφ/2) + cos φ1 · cos φ2 · sin²(Δλ/2)` with the degree
inputs converted to radians. -/
noncomputable def haversineA (lat1 lon1 lat2 lon2 : ℝ) : ℝ :=
  Real.sin ((lat2 - lat1) * Real.pi / 180 / 2) * Real.sin ((lat2 - lat1) * Real.pi / 180 / 2) +
    Real.cos (lat1 * Real.pi / 180) * Real.cos (lat2 * Real.pi / 180) *
      Real.sin ((lon2 - lon1) * Real.pi / 180 / 2) * Real.sin ((lon2 - lon1) * Real.pi / 180 / 2)

/-- `haversineDistance` (src/app.js lines 336-349):
`R * 2 * atan2(sqrt a, sqrt (1 - a))` with `R = 6371000` meters. -/
noncomputable def haversineDistance (lat1 lon1 lat2 lon2 : ℝ) : ℝ :=
  6371000 *
    (2 * atan2 (Real.sqrt (haversineA lat1 lon1 lat2 lon2))
      (Real.sqrt (1 - haversineA lat1 lon1 lat2 lon2)))

/-- `getDistanceToTrail` (src/app.js lines 514-521): fold the track
points, keeping the smallest vertex distance; `minDist` starts at
`Infinity`, modelled as `⊤` in `WithTop ℝ`. -/
noncomputable def getDistanceToTrail (lat lon : ℝ) (coords : List Point) : WithTop ℝ :=
  coords.foldl
    (fun minDist c =>
      if (haversineDistance lat lon (c.lat : ℝ) (c.lon : ℝ) : WithTop ℝ) < minDist then
        ((haversineDistance lat lon (c.lat : ℝ) (c.lon : ℝ) : ℝ) : WithTop ℝ)
      else minDist)
    ⊤

/-- `onPositionUpdate` (src/app.js lines 467-491) as a state transition:
store the new fix, and when a track is loaded recompute the distance
indicator from the stored coordinates. -/
noncomputable def onPositionUpdate (lat lon acc : ℚ) (s : AppState) : AppState :=
  let s1 := { s with userPosition := some (lat, lon, acc) }
  if 0 < s1.trackData.length then
    { s1 with
        distanceIndicator :=
          some (getDistanceToTrail (lat : ℝ) (lon : ℝ) (s1.trackData.map jsonToPoint)) }
  else s1

/-- The total-distance loop of `updateStats` (src/app.js lines 304-310):
sum of consecutive-pair haversine distances, with `prev` the previous
point. -/
noncomputable def totalDistanceLoop : Point → List Point → ℝ
  | _, [] => 0
  | prev, c :: rest =>
      haversineDistance (prev.lat : ℝ) (prev.lon : ℝ) (c.lat : ℝ) (c.lon : ℝ) +
        totalDistanceLoop c rest

/-- The elevation-gain part of the second loop of `updateStats`
(src/app.js lines 322-325): add each strictly positive consecutive
elevation delta. -/
def gainLoop : List Point → ℚ
  | [] => 0
  | [_] => 0
  | a :: b :: rest => (if b.ele - a.ele > 0 then b.ele - a.ele else 0) + gainLoop (b :: rest)

/-- The statistics displayed by `updateStats`.  `minElev` starts at
`Infinity` and `maxElev` at `-Infinity` in the source, modelled as `⊤`
in `WithTop ℚ` and `⊥` in `WithBot ℚ`. -/
structure TrackStats where
  totalDistance : ℝ
  elevationGain : ℚ
  minElev : WithTop ℚ
  maxElev : WithBot ℚ

/-- `updateStats` (src/app.js lines 302-334) without the final display
formatting: total distance in meters, ascent-only elevation gain, and
the min/max elevation scans. -/
noncomputable def updateStats (coords : List Point) : TrackStats :=
  { totalDistance :=
      match coords with
      | [] => 0
      | c :: rest => totalDistanceLoop c rest
    elevationGain := gainLoop coords
    minElev := coords.foldl (fun m c => if (c.ele : WithTop ℚ) < m then (c.ele : WithTop ℚ) else m) ⊤
    maxElev := coords.foldl (fun m c => if m < (c.ele : WithBot ℚ) then (c.ele : WithBot ℚ) else m) ⊥ }

/-- The running-total loop of `drawElevationChart` (src/app.js lines
360-366): given the running cumulative meters and the remaining step
distances, push `cumulative / 1000` for each step. -/
noncomputable def cumKm : ℝ → List ℝ → List ℝ
  | _, [] => []
  | cum, d :: rest => ((cum + d) / 1000) :: cumKm (cum + d) rest

/-- The consecutive-pair step distances of a coordinate list, as walked
by both loops. -/
noncomputable def pairDists (coords : List Point) : List ℝ :=
  (coords.zip coords.tail).map
    (fun p => haversineDistance (p.1.lat : ℝ) (p.1.lon : ℝ) (p.2.lat : ℝ) (p.2.lon : ℝ))

/-- The `distances` x-axis series computed by `drawElevationChart`
(src/app.js lines 358-366): starts at 0, then one running total (in km)
per consecutive pair. -/
noncomputable def drawElevationChartDistances (coords : List Point) : List ℝ :=
  0 :: cumKm 0 (pairDists coords)

/-! Concrete documents and states used by the witnesses and
counterexamples below. -/

/-- A coordinate object with numeric `lat`, `lon`, `ele` fields. -/
def ptJson (lat lon ele : ℚ) : Json :=
  .obj [(kLat, .num lat), (kLon, .num lon), (kEle, .num ele)]

/-- The initial application state (src/app.js lines 9-20). -/
def s0 : AppState :=
  { trackData := [], trackLayer := none, startMarker := none, endMarker := none,
    statsFor := none, chartFor := none, userPosition := none,
    distanceIndicator := none, gpsWatching := false }

def trackDataBoth : List Json := [.arr [ptJson 1 2 3], .arr [ptJson 4 5 6]]

def dataBoth : Json := .obj [(kTrackData, .arr trackDataBoth)]

/-- A document matching both the nested `data.trackData` shape and
carrying a top-level `coordinates` key. -/
def docBoth : Json :=
  .obj [(kData, dataBoth), (kCoordinates, .arr [.arr [.num 9, .num 9]])]

/-- The spec's own empty-resolution example `{data:{trackData:[]}}`. -/
def docEmptyTD : Json := .obj [(kData, .obj [(kTrackData, .arr [])])]

/-- A parsed document with a truthy non-array `coordinates` value. -/
def docCoordBad : Json := .obj [(kCoordinates, .num 5)]

/-! Shape predicates of spec section 4.3, used to state claims that
quantify over "documents matching no shape rule".  Modelled from the
spec: shape 1 is a `data.trackData` non-empty array, shape 2 a bare
array of `{lon,lat,ele}`-shaped objects, shape 3 a `coordinates` field
holding an array of (at least binary) coordinate triples. -/

def isNumJson : Json → Bool
  | .num _ => true
  | _ => false

/-- Modelled from the spec: an `{lon,lat,ele}`-shaped object. -/
def specPointObj (j : Json) : Bool :=
  match j with
  | .obj _ => isNumJson (jsGetD j kLon) && isNumJson (jsGetD j kLat) && isNumJson (jsGetD j kEle)
  | _ => false

/-- Modelled from the spec: a `[lon, lat, ele?]` coordinate triple. -/
def specTriple : Json → Bool
  | .arr xs => decide (2 ≤ xs.length)
  | _ => false

/-- Modelled from the spec: shape rule 1, a non-empty `data.trackData`
array. -/
def specShape1 (j : Json) : Bool :=
  match jsGetD (jsGetD j kData) kTrackData with
  | .arr (_ :: _) => true
  | _ => false

/-- Modelled from the spec: shape rule 2, a bare array of point-shaped
objects. -/
def specShape2 : Json → Bool
  | .arr xs => xs.all specPointObj
  | _ => false

/-- Modelled from the spec: shape rule 3, a GeoJSON-style `coordinates`
array. -/
def specShape3 (j : Json) : Bool :=
  match jsGetD j kCoordinates with
  | .arr xs => xs.all specTriple
  | _ => false

/-- Modelled from the spec: some shape rule of section 4.3 matches. -/
def specShapeMatch (j : Json) : Bool := specShape1 j || specShape2 j || specShape3 j

/-- If reading a property of `d` yields an array, `d` must be an object,
hence truthy. -/
theorem jsTruthy_of_getField_arr {d : Json} {k : String} {xs : List Json}
    (h : getField d k = .ok (.arr xs)) : jsTruthy d = true := by
  cases d <;> simp [getField, jsTruthy] at h ⊢

/-- C1: ingestion shape-matching follows the fixed priority order with
first match winning.  (1) A document whose `data.trackData` property is
a non-empty array resolves from it — the first inner array when it is an
array of arrays, else the array itself — regardless of any other keys
(`coordinates` included); (2) a bare top-level array resolves to itself
(such a document can never satisfy rule 1, its property reads being
`undefined`); (3) the `coordinates` rule is consulted only when the
rule-1 condition evaluated to false and the document is not an array. -/
theorem ingestion_priority :
    (∀ (json d : Json) (xs : List Json),
        getField json kData = .ok d →
        getField d kTrackData = .ok (.arr xs) →
        xs ≠ [] →
        resolveCoords json = .ok (match xs with | .arr ys :: _ => ys | _ => xs)) ∧
    (∀ xs : List Json, resolveCoords (.arr xs) = .ok xs) ∧
    (∀ json : Json, (∀ xs : List Json, json ≠ .arr xs) →
        trackDataCond json = .ok false → resolveCoords json = coordCoords json) := by
  refine ⟨?_, ?_, ?_⟩
  · intro json d xs h1 h2 h3
    have htd : jsTruthy d = true := jsTruthy_of_getField_arr h2
    have harr : jsTruthy (.arr xs) = true := rfl
    have hc : trackDataCond json = .ok true := by
      simp [trackDataCond, h1, htd, h2, harr]
    have hlen : 0 < xs.length := List.length_pos.mpr h3
    simp only [resolveCoords, hc, h1, h2, if_pos hlen]
    rcases xs with _ | ⟨x, rest⟩
    · exact absurd rfl h3
    · cases x <;> rfl
  · intro xs
    rfl
  · intro json hne hc
    cases json <;> first
      | exact absurd rfl (hne _)
      | simp only [resolveCoords, hc]

/-- Witness for C1: a concrete document carrying both a nested
`data.trackData` array-of-arrays and a top-level `coordinates` key
resolves to the first inner array. -/
theorem ingestion_priority_witness :
    getField docBoth kData = .ok dataBoth ∧
    getField dataBoth kTrackData = .ok (.arr trackDataBoth) ∧
    trackDataBoth ≠ [] ∧
    resolveCoords docBoth = .ok [ptJson 1 2 3] :=
  ⟨rfl, rfl, by simp [trackDataBoth],
    ingestion_priority.1 docBoth dataBoth trackDataBoth rfl rfl (by simp [trackDataBoth])⟩

/-- C2 (amended): a load attempt whose shape resolution completes with
an empty coordinate list ends with the `NoTrackDataFound` alert, and one
whose resolution throws ends with the thrown error; in both failure
modes the load is atomic — the state (stored track, layers, markers,
statistics, chart, indicator, fix) is exactly the pre-load state and
statistics/drawing are never invoked. -/
theorem loadFailure_atomic (json : Json) (s : AppState) :
    (resolveCoords json = .ok [] → (loadTrackData json s).2.1 = .noTrackData) ∧
    (∀ e, resolveCoords json = .error e → (loadTrackData json s).2.1 = .thrown) ∧
    ((loadTrackData json s).2.1 = .noTrackData ∨ (loadTrackData json s).2.1 = .thrown →
      (loadTrackData json s).1 = s ∧
      Effect.statsComputed ∉ (loadTrackData json s).2.2 ∧
      Effect.trackDrawn ∉ (loadTrackData json s).2.2 ∧
      Effect.chartDrawn ∉ (loadTrackData json s).2.2) := by
  unfold loadTrackData
  cases h : resolveCoords json with
  | error e => simp
  | ok coords =>
    by_cases hl : coords.length = 0
    · simp [hl]
    · simp [hl]
      exact fun hh => hl (by simp [hh])

/-- Witness for C2: the spec's own example `{data:{trackData:[]}}`
resolves to the empty list, fails with `NoTrackDataFound`, and leaves
the initial state untouched with statistics never invoked. -/
theorem loadFailure_atomic_witness :
    resolveCoords docEmptyTD = .ok [] ∧
    (loadTrackData docEmptyTD s0).2.1 = .noTrackData ∧
    (loadTrackData docEmptyTD s0).1 = s0 ∧
    Effect.statsComputed ∉ (loadTrackData docEmptyTD s0).2.2 :=
  ⟨rfl, (loadFailure_atomic docEmptyTD s0).1 rfl,
    ((loadFailure_atomic docEmptyTD s0).2.2
      (Or.inl ((loadFailure_atomic docEmptyTD s0).1 rfl))).1,
    ((loadFailure_atomic docEmptyTD s0).2.2
      (Or.inl ((loadFailure_atomic docEmptyTD s0).1 rfl))).2.1⟩

/-- C2 counterexample: the parsed document `{coordinates: 5}` matches no
shape rule of spec section 4.3, yet the load does not fail with
`NoTrackDataFound`: calling `.map` on the truthy non-array `coordinates`
value throws a `TypeError`, which the caller's catch surfaces as a parse
error. -/
theorem loadFailure_counterexample :
    specShapeMatch docCoordBad = false ∧
    (loadTrackData docCoordBad s0).2.1 = .thrown ∧
    LoadOutcome.thrown ≠ LoadOutcome.noTrackData :=
  ⟨rfl, rfl, by decide⟩

/-- A bare-array track document with a single point. -/
def docBare : Json := .arr [ptJson 0 0 0]

/-- A bare-array track document whose only point is the north pole. -/
def docNewTrack : Json := .arr [ptJson 90 0 0]

/-- C9 (amended): a successful `loadTrackData` performs no proximity
recomputation — the distance indicator and stored fix are exactly the
pre-load values; the load (re)starts a GPS watch, and only when the next
position callback runs is the indicator recomputed, at that point
against the newly installed track's points. -/
theorem load_noRecompute (json : Json) (s : AppState)
    (h : (loadTrackData json s).2.1 = .installed) :
    (loadTrackData json s).1.distanceIndicator = s.distanceIndicator ∧
    (loadTrackData json s).1.userPosition = s.userPosition ∧
    Effect.gpsStarted ∈ (loadTrackData json s).2.2 ∧
    ∀ lat lon acc : ℚ,
      (onPositionUpdate lat lon acc (loadTrackData json s).1).distanceIndicator =
        some (getDistanceToTrail (lat : ℝ) (lon : ℝ)
          ((loadTrackData json s).1.trackData.map jsonToPoint)) := by
  unfold loadTrackData at h ⊢
  cases hr : resolveCoords json with
  | error e => rw [hr] at h; simp at h
  | ok coords =>
    rw [hr] at h
    by_cases hl : coords.length = 0
    · simp [hl] at h
    · simp only [if_neg hl] at h ⊢
      refine ⟨trivial, trivial, by simp, ?_⟩
      intro lat lon acc
      have hpos : 0 < coords.length := Nat.pos_of_ne_zero hl
      simp [onPositionUpdate, hpos]

/-- Witness for C9's amended claim at a concrete successful load. -/
theorem load_noRecompute_witness :
    (loadTrackData docBare s0).2.1 = .installed ∧
    ((loadTrackData docBare s0).1.distanceIndicator = s0.distanceIndicator ∧
      (loadTrackData docBare s0).1.userPosition = s0.userPosition ∧
      Effect.gpsStarted ∈ (loadTrackData docBare s0).2.2 ∧
      ∀ lat lon acc : ℚ,
        (onPositionUpdate lat lon acc (loadTrackData docBare s0).1).distanceIndicator =
          some (getDistanceToTrail (lat : ℝ) (lon : ℝ)
            ((loadTrackData docBare s0).1.trackData.map jsonToPoint))) :=
  ⟨rfl, load_noRecompute docBare s0 rfl⟩

/-! Facts about `atan2` and `haversineDistance`. -/

theorem atan2_zero_one : atan2 0 1 = 0 := by
  unfold atan2
  rw [if_pos (by norm_num : (0:ℝ) < 1)]
  norm_num [Real.arctan_zero]

theorem atan2_self_pos {x : ℝ} (hx : 0 < x) : atan2 x x = Real.pi / 4 := by
  unfold atan2
  rw [if_pos hx, div_self (ne_of_gt hx), Real.arctan_one]

theorem haversineA_self (lat lon : ℝ) : haversineA lat lon lat lon = 0 := by
  unfold haversineA
  rw [show (lat - lat) * Real.pi / 180 / 2 = 0 by ring,
    show (lon - lon) * Real.pi / 180 / 2 = 0 by ring, Real.sin_zero]
  ring

theorem haversineDistance_self (lat lon : ℝ) : haversineDistance lat lon lat lon = 0 := by
  unfold haversineDistance
  rw [haversineA_self, Real.sqrt_zero, sub_zero, Real.sqrt_one, atan2_zero_one]
  ring

theorem haversineA_comm (lat1 lon1 lat2 lon2 : ℝ) :
    haversineA lat2 lon2 lat1 lon1 = haversineA lat1 lon1 lat2 lon2 := by
  unfold haversineA
  rw [show (lat1 - lat2) * Real.pi / 180 / 2 = -((lat2 - lat1) * Real.pi / 180 / 2) by ring,
    show (lon1 - lon2) * Real.pi / 180 / 2 = -((lon2 - lon1) * Real.pi / 180 / 2) by ring,
    Real.sin_neg, Real.sin_neg]
  ring

/-- The half-angle rewriting of the haversine intermediate: `a` equals
`(1 - dot) / 2` where `dot` is the dot product of the two unit direction
vectors. -/
theorem haversineA_eq (lat1 lon1 lat2 lon2 : ℝ) :
    haversineA lat1 lon1 lat2 lon2 =
      (1 - (Real.sin (lat1 * Real.pi / 180) * Real.sin (lat2 * Real.pi / 180) +
        Real.cos (lat1 * Real.pi / 180) * Real.cos (lat2 * Real.pi / 180) *
          Real.cos (2 * ((lon2 - lon1) * Real.pi / 180 / 2)))) / 2 := by
  have h1 := Real.sin_sq_eq_half_sub ((lat2 - lat1) * Real.pi / 180 / 2)
  have h2 := Real.sin_sq_eq_half_sub ((lon2 - lon1) * Real.pi / 180 / 2)
  have h3 := Real.cos_sub (lat2 * Real.pi / 180) (lat1 * Real.pi / 180)
  rw [show 2 * ((lat2 - lat1) * Real.pi / 180 / 2) =
    lat2 * Real.pi / 180 - lat1 * Real.pi / 180 by ring] at h1
  unfold haversineA
  linear_combination h1 +
    Real.cos (lat1 * Real.pi / 180) * Real.cos (lat2 * Real.pi / 180) * h2 - h3 / 2

/-- Cauchy-Schwarz-style bound: the spherical dot product never exceeds 1. -/
theorem sphericalDot_le_one (x y u : ℝ) (h1 : -1 ≤ u) (h2 : u ≤ 1) :
    Real.sin x * Real.sin y + Real.cos x * Real.cos y * u ≤ 1 := by
  nlinarith [Real.sin_sq_add_cos_sq x, Real.sin_sq_add_cos_sq y,
    sq_nonneg (Real.sin x - Real.sin y), sq_nonneg (Real.cos x * u - Real.cos y),
    mul_nonneg (sq_nonneg (Real.cos x)) (by nlinarith : (0:ℝ) ≤ (1 - u) * (1 + u))]

/-- Lower bound companion of `sphericalDot_le_one`. -/
theorem neg_one_le_sphericalDot (x y u : ℝ) (h1 : -1 ≤ u) (h2 : u ≤ 1) :
    -1 ≤ Real.sin x * Real.sin y + Real.cos x * Real.cos y * u := by
  nlinarith [Real.sin_sq_add_cos_sq x, Real.sin_sq_add_cos_sq y,
    sq_nonneg (Real.sin x + Real.sin y), sq_nonneg (Real.cos x * u + Real.cos y),
    mul_nonneg (sq_nonneg (Real.cos x)) (by nlinarith : (0:ℝ) ≤ (1 - u) * (1 + u))]

theorem haversineA_nonneg (lat1 lon1 lat2 lon2 : ℝ) : 0 ≤ haversineA lat1 lon1 lat2 lon2 := by
  rw [haversineA_eq]
  have := sphericalDot_le_one (lat1 * Real.pi / 180) (lat2 * Real.pi / 180)
    (Real.cos (2 * ((lon2 - lon1) * Real.pi / 180 / 2)))
    (Real.neg_one_le_cos _) (Real.cos_le_one _)
  linarith

theorem haversineA_le_one (lat1 lon1 lat2 lon2 : ℝ) : haversineA lat1 lon1 lat2 lon2 ≤ 1 := by
  rw [haversineA_eq]
  have := neg_one_le_sphericalDot (lat1 * Real.pi / 180) (lat2 * Real.pi / 180)
    (Real.cos (2 * ((lon2 - lon1) * Real.pi / 180 / 2)))
    (Real.neg_one_le_cos _) (Real.cos_le_one _)
  linarith

/-- C7 (amended): `haversineDistance` is symmetric, and coordinate-equal
inputs have distance zero; the converse (zero implies coordinate-equal)
fails — see the counterexample. -/
theorem haversine_symm_selfZero :
    (∀ lat1 lon1 lat2 lon2 : ℝ,
      haversineDistance lat1 lon1 lat2 lon2 = haversineDistance lat2 lon2 lat1 lon1) ∧
    (∀ lat lon : ℝ, haversineDistance lat lon lat lon = 0) := by
  constructor
  · intro lat1 lon1 lat2 lon2
    unfold haversineDistance
    rw [haversineA_comm]
  · exact haversineDistance_self

/-- C7 counterexample: the two distinct coordinate pairs `(90, 0)` and
`(90, 50)` (both the north pole) are at `haversineDistance` zero, so
zero distance does not imply coordinate-identical inputs. -/
theorem haversine_zero_counterexample :
    haversineDistance 90 0 90 50 = 0 ∧ (0 : ℝ) ≠ 50 := by
  constructor
  · have ha : haversineA 90 0 90 50 = 0 := by
      unfold haversineA
      rw [show ((90:ℝ) - 90) * Real.pi / 180 / 2 = 0 by ring, Real.sin_zero,
        show (90:ℝ) * Real.pi / 180 = Real.pi / 2 by ring, Real.cos_pi_div_two]
      ring
    unfold haversineDistance
    rw [ha, Real.sqrt_zero, sub_zero, Real.sqrt_one, atan2_zero_one]
    ring
  · norm_num

/-- Modelled from the spec: `haversineDistance` with the square-root
argument of the central-angle formula clamped to `[0, 1]` before either
square root is taken. -/
noncomputable def haversineDistanceClamped (lat1 lon1 lat2 lon2 : ℝ) : ℝ :=
  6371000 *
    (2 * atan2 (Real.sqrt (max 0 (min 1 (haversineA lat1 lon1 lat2 lon2))))
      (Real.sqrt (1 - max 0 (min 1 (haversineA lat1 lon1 lat2 lon2)))))

/-- C8: for every pair of input points the square-root argument `a` of
the central-angle formula already lies in `[0, 1]` (so neither square
root ever receives a negative argument and no domain failure is
reachable), and consequently the spec's clamped variant computes exactly
the same distance as the source function, which performs no clamping. -/
theorem sqrtArg_in_unit_interval (lat1 lon1 lat2 lon2 : ℝ) :
    (0 ≤ haversineA lat1 lon1 lat2 lon2 ∧ haversineA lat1 lon1 lat2 lon2 ≤ 1) ∧
    haversineDistanceClamped lat1 lon1 lat2 lon2 = haversineDistance lat1 lon1 lat2 lon2 := by
  refine ⟨⟨haversineA_nonneg lat1 lon1 lat2 lon2, haversineA_le_one lat1 lon1 lat2 lon2⟩, ?_⟩
  unfold haversineDistanceClamped haversineDistance
  rw [min_eq_right (haversineA_le_one lat1 lon1 lat2 lon2),
    max_eq_right (haversineA_nonneg lat1 lon1 lat2 lon2)]

/-- The running-minimum fold of `getDistanceToTrail`: the result is the
initial value or one of the folded values, it never exceeds the initial
value, and it is a lower bound of all folded values. -/
theorem minFold_spec (f : Point → WithTop ℝ) :
    ∀ (coords : List Point) (init : WithTop ℝ),
      (coords.foldl (fun m c => if f c < m then f c else m) init = init ∨
        ∃ p ∈ coords, coords.foldl (fun m c => if f c < m then f c else m) init = f p) ∧
      (coords.foldl (fun m c => if f c < m then f c else m) init ≤ init) ∧
      ∀ p ∈ coords, coords.foldl (fun m c => if f c < m then f c else m) init ≤ f p := by
  intro coords
  induction coords with
  | nil =>
    intro init
    exact ⟨Or.inl rfl, le_refl _, by simp⟩
  | cons c rest ih =>
    intro init
    have hb1 : (if f c < init then f c else init) ≤ init := by
      by_cases hc : f c < init
      · rw [if_pos hc]; exact le_of_lt hc
      · rw [if_neg hc]
    have hb2 : (if f c < init then f c else init) ≤ f c := by
      by_cases hc : f c < init
      · rw [if_pos hc]
      · rw [if_neg hc]; exact le_of_not_lt hc
    obtain ⟨ih1, ih2, ih3⟩ := ih (if f c < init then f c else init)
    rw [List.foldl_cons]
    refine ⟨?_, le_trans ih2 hb1, ?_⟩
    · rcases ih1 with hh | ⟨p, hp, hpe⟩
      · by_cases hc : f c < init
        · right
          exact ⟨c, List.mem_cons_self c rest, by rw [hh, if_pos hc]⟩
        · left
          rw [hh, if_neg hc]
      · right
        exact ⟨p, List.mem_cons_of_mem c hp, hpe⟩
    · intro p hp
      rcases List.mem_cons.mp hp with rfl | hp2
      · exact le_trans ih2 hb2
      · exact ih3 p hp2

/-- C3 (amended): on a non-empty vertex list, `getDistanceToTrail`
returns the minimum over all vertices of the great-circle distance from
the query point to the vertex (it is attained at some vertex and is a
lower bound for all of them); on the empty list it does not fail but
returns the initial `Infinity`. -/
theorem getDistanceToTrail_spec (lat lon : ℝ) (coords : List Point) :
    (coords = [] → getDistanceToTrail lat lon coords = ⊤) ∧
    (coords ≠ [] →
      (∃ p ∈ coords, getDistanceToTrail lat lon coords =
        ((haversineDistance lat lon (p.lat : ℝ) (p.lon : ℝ) : ℝ) : WithTop ℝ)) ∧
      ∀ p ∈ coords, getDistanceToTrail lat lon coords ≤
        ((haversineDistance lat lon (p.lat : ℝ) (p.lon : ℝ) : ℝ) : WithTop ℝ)) := by
  constructor
  · rintro rfl; rfl
  · intro h
    obtain ⟨h1, h2, h3⟩ := minFold_spec
      (fun c => ((haversineDistance lat lon (c.lat : ℝ) (c.lon : ℝ) : ℝ) : WithTop ℝ)) coords ⊤
    rcases h1 with hh | ⟨p, hp, hpe⟩
    · exfalso
      obtain ⟨q, hq⟩ := List.exists_mem_of_ne_nil coords h
      have h4 := h3 q hq
      rw [hh] at h4
      exact absurd h4 (not_le.mpr (WithTop.coe_lt_top _))
    · exact ⟨⟨p, hp, hpe⟩, h3⟩

/-- Witness for C3's amended claim: the empty list yields `Infinity`,
and a one-vertex list yields the (attained) minimum. -/
theorem getDistanceToTrail_spec_witness :
    getDistanceToTrail 0 0 [] = ⊤ ∧
    (([⟨0, 0, 0⟩] : List Point) ≠ [] ∧
      ((∃ p ∈ ([⟨0, 0, 0⟩] : List Point), getDistanceToTrail 0 0 [⟨0, 0, 0⟩] =
          ((haversineDistance 0 0 (p.lat : ℝ) (p.lon : ℝ) : ℝ) : WithTop ℝ)) ∧
        ∀ p ∈ ([⟨0, 0, 0⟩] : List Point), getDistanceToTrail 0 0 [⟨0, 0, 0⟩] ≤
          ((haversineDistance 0 0 (p.lat : ℝ) (p.lon : ℝ) : ℝ) : WithTop ℝ))) :=
  ⟨(getDistanceToTrail_spec 0 0 []).1 rfl, by simp,
    (getDistanceToTrail_spec 0 0 [⟨0, 0, 0⟩]).2 (by simp)⟩

/-- C3 counterexample: called on the empty vertex list, the source
function does not fail with `InvalidInput` (it has no failure channel at
all): the loop body never runs and the initial `Infinity` is returned. -/
theorem getDistanceToTrail_empty_counterexample :
    getDistanceToTrail 0 0 [] = (⊤ : WithTop ℝ) := rfl

/-- The claim-side ascent-only gain: the sum, over consecutive point
pairs, of the elevation delta restricted to strictly positive deltas. -/
def sumPosDeltas (coords : List Point) : ℚ :=
  ((coords.zip coords.tail).map
    (fun p => if p.2.ele - p.1.ele > 0 then p.2.ele - p.1.ele else 0)).sum

/-- C4: the computed elevation gain is the sum of the strictly positive
consecutive elevation deltas (descents contribute zero), and the track
with elevations 100, 90, 120 yields gain 30. -/
theorem elevationGain_spec :
    (∀ coords : List Point, (updateStats coords).elevationGain = sumPosDeltas coords) ∧
    (updateStats [⟨0, 0, 100⟩, ⟨0, 0, 90⟩, ⟨0, 0, 120⟩]).elevationGain = 30 := by
  constructor
  · intro coords
    show gainLoop coords = sumPosDeltas coords
    induction coords with
    | nil => rfl
    | cons a rest ih =>
      cases rest with
      | nil => rfl
      | cons b rest2 =>
        have hg : gainLoop (a :: b :: rest2) =
            (if b.ele - a.ele > 0 then b.ele - a.ele else 0) + gainLoop (b :: rest2) := rfl
        rw [hg, ih]
        simp [sumPosDeltas]
  · norm_num [updateStats, gainLoop]

/-- C6: statistics of a single-point track: total distance 0, elevation
gain 0, and minimum elevation equal to maximum elevation equal to the
point's elevation (the computation is total — it cannot fail). -/
theorem singlePoint_stats (p : Point) :
    (updateStats [p]).totalDistance = 0 ∧
    (updateStats [p]).elevationGain = 0 ∧
    (updateStats [p]).minElev = (p.ele : WithTop ℚ) ∧
    (updateStats [p]).maxElev = (p.ele : WithBot ℚ) := by
  refine ⟨rfl, rfl, ?_, ?_⟩
  · show (if (p.ele : WithTop ℚ) < ⊤ then (p.ele : WithTop ℚ) else ⊤) = (p.ele : WithTop ℚ)
    rw [if_pos (WithTop.coe_lt_top p.ele)]
  · show (if (⊥ : WithBot ℚ) < (p.ele : WithBot ℚ) then (p.ele : WithBot ℚ) else ⊥) =
      (p.ele : WithBot ℚ)
    rw [if_pos (WithBot.bot_lt_coe p.ele)]

theorem cumKm_length : ∀ (ds : List ℝ) (cum : ℝ), (cumKm cum ds).length = ds.length := by
  intro ds
  induction ds with
  | nil => intro cum; rfl
  | cons d rest ih => intro cum; simp [cumKm, ih]

theorem cumKm_getD : ∀ (ds : List ℝ) (cum : ℝ) (j : Nat), j < ds.length →
    (cumKm cum ds).getD j 0 = (cum + (ds.take (j + 1)).sum) / 1000 := by
  intro ds
  induction ds with
  | nil => intro cum j hj; simp at hj
  | cons d rest ih =>
    intro cum j hj
    cases j with
    | zero => simp [cumKm]
    | succ j2 =>
      have hj2 : j2 < rest.length := by simpa using hj
      rw [show (cumKm cum (d :: rest)).getD (j2 + 1) 0 =
          (cumKm (cum + d) rest).getD j2 0 from rfl,
        ih (cum + d) j2 hj2, List.take_succ_cons, List.sum_cons]
      ring

theorem pairDists_length (coords : List Point) :
    (pairDists coords).length = coords.length - 1 := by
  simp only [pairDists, List.length_map, List.length_zip, List.length_tail]
  exact Nat.min_eq_right (Nat.sub_le _ _)

/-- C5: for a non-empty track of n points, the `distances` series of
`drawElevationChart` has exactly n entries, starts at 0, and its i-th
entry is the sum of the first i consecutive-pair great-circle distances
divided by 1000 (kilometers). -/
theorem chartDistances_spec (coords : List Point) (h : coords ≠ []) :
    (drawElevationChartDistances coords).length = coords.length ∧
    (drawElevationChartDistances coords).head? = some 0 ∧
    ∀ i : Nat, i < coords.length →
      (drawElevationChartDistances coords).getD i 0 = ((pairDists coords).take i).sum / 1000 := by
  have hpos : 0 < coords.length := List.length_pos.mpr h
  have hsteps := pairDists_length coords
  refine ⟨?_, rfl, ?_⟩
  · show (0 :: cumKm 0 (pairDists coords)).length = coords.length
    rw [List.length_cons, cumKm_length, hsteps]
    omega
  · intro i hi
    cases i with
    | zero => simp [drawElevationChartDistances]
    | succ j =>
      have hj : j < (pairDists coords).length := by omega
      rw [show (drawElevationChartDistances coords).getD (j + 1) 0 =
          (cumKm 0 (pairDists coords)).getD j 0 from rfl,
        cumKm_getD (pairDists coords) 0 j hj, zero_add]

/-- Witness for C5 at a concrete two-point track. -/
theorem chartDistances_spec_witness :
    ([⟨0, 0, 0⟩, ⟨0, 1, 0⟩] : List Point) ≠ [] ∧
    ((drawElevationChartDistances [⟨0, 0, 0⟩, ⟨0, 1, 0⟩]).length =
        ([⟨0, 0, 0⟩, ⟨0, 1, 0⟩] : List Point).length ∧
      (drawElevationChartDistances [⟨0, 0, 0⟩, ⟨0, 1, 0⟩]).head? = some 0 ∧
      ∀ i : Nat, i < ([⟨0, 0, 0⟩, ⟨0, 1, 0⟩] : List Point).length →
        (drawElevationChartDistances [⟨0, 0, 0⟩, ⟨0, 1, 0⟩]).getD i 0 =
          ((pairDists [⟨0, 0, 0⟩, ⟨0, 1, 0⟩]).take i).sum / 1000) :=
  ⟨by simp, chartDistances_spec _ (by simp)⟩

theorem totalDistanceLoop_eq_sum : ∀ (rest : List Point) (c : Point),
    totalDistanceLoop c rest = (pairDists (c :: rest)).sum := by
  intro rest
  induction rest with
  | nil => intro c; simp [totalDistanceLoop, pairDists]
  | cons b rest2 ih =>
    intro c
    have hp : pairDists (c :: b :: rest2) =
        haversineDistance (c.lat : ℝ) (c.lon : ℝ) (b.lat : ℝ) (b.lon : ℝ) ::
          pairDists (b :: rest2) := by
      simp [pairDists]
    rw [show totalDistanceLoop c (b :: rest2) =
        haversineDistance (c.lat : ℝ) (c.lon : ℝ) (b.lat : ℝ) (b.lon : ℝ) +
          totalDistanceLoop b rest2 from rfl,
      ih, hp, List.sum_cons]

theorem cumKm_getLast : ∀ (ds : List ℝ), ds ≠ [] → ∀ (cum x : ℝ),
    (x :: cumKm cum ds).getLast? = some ((cum + ds.sum) / 1000) := by
  intro ds
  induction ds with
  | nil => intro h; exact absurd rfl h
  | cons d rest ih =>
    intro _ cum x
    cases rest with
    | nil => simp [cumKm]
    | cons e rest2 =>
      have h2 := ih (List.cons_ne_nil e rest2) (cum + d) ((cum + d) / 1000)
      calc (x :: cumKm cum (d :: e :: rest2)).getLast?
          = (((cum + d) / 1000) :: cumKm (cum + d) (e :: rest2)).getLast? := by
            rw [show cumKm cum (d :: e :: rest2) =
              ((cum + d) / 1000) :: cumKm (cum + d) (e :: rest2) from rfl,
              List.getLast?_cons_cons]
        _ = some ((cum + d + (e :: rest2).sum) / 1000) := h2
        _ = some ((cum + (d :: e :: rest2).sum) / 1000) := by
            simp [add_assoc]

/-- C10: the two independently coded distance loops agree — for every
track, the statistics total distance equals 1000 times the last entry of
the elevation chart's cumulative kilometer series (for the empty and
single-point cases both are 0). -/
theorem distance_loops_agree (coords : List Point) :
    ∃ d : ℝ, (drawElevationChartDistances coords).getLast? = some d ∧
      (updateStats coords).totalDistance = 1000 * d := by
  cases coords with
  | nil =>
    refine ⟨0, rfl, ?_⟩
    show (0 : ℝ) = 1000 * 0
    ring
  | cons c rest =>
    cases rest with
    | nil =>
      refine ⟨0, rfl, ?_⟩
      show totalDistanceLoop c [] = 1000 * 0
      simp [totalDistanceLoop]
    | cons b rest2 =>
      refine ⟨(0 + (pairDists (c :: b :: rest2)).sum) / 1000, ?_, ?_⟩
      · have hne : pairDists (c :: b :: rest2) ≠ [] := by simp [pairDists]
        exact cumKm_getLast _ hne 0 0
      · show totalDistanceLoop c (b :: rest2) =
          1000 * ((0 + (pairDists (c :: b :: rest2)).sum) / 1000)
        rw [totalDistanceLoop_eq_sum]
        ring

theorem haversineA_equator_pole : haversineA 0 0 90 0 = 1 / 2 := by
  unfold haversineA
  rw [show ((90:ℝ) - 0) * Real.pi / 180 / 2 = Real.pi / 4 by ring,
    show ((0:ℝ) - 0) * Real.pi / 180 / 2 = 0 by ring,
    Real.sin_zero, Real.sin_pi_div_four]
  have h2 : Real.sqrt 2 * Real.sqrt 2 = 2 := Real.mul_self_sqrt (by norm_num)
  linear_combination h2 / 4

theorem haversine_equator_pole : haversineDistance 0 0 90 0 = 6371000 * (Real.pi / 2) := by
  unfold haversineDistance
  rw [haversineA_equator_pole, show (1:ℝ) - 1 / 2 = 1 / 2 by norm_num,
    atan2_self_pos (Real.sqrt_pos.mpr (by norm_num : (0:ℝ) < 1 / 2))]
  ring

theorem getDistanceToTrail_singleton (lat lon : ℝ) (p : Point) :
    getDistanceToTrail lat lon [p] =
      ((haversineDistance lat lon (p.lat : ℝ) (p.lon : ℝ) : ℝ) : WithTop ℝ) := by
  unfold getDistanceToTrail
  rw [List.foldl_cons, List.foldl_nil, if_pos (WithTop.coe_lt_top _)]

/-- The application state right before the second load in the C9
counterexample: a single-point track at the origin is installed, a live
fix at the origin exists, and the indicator shows the (correct) distance
0 to that track. -/
noncomputable def sFix : AppState :=
  { trackData := [ptJson 0 0 0], trackLayer := some [ptJson 0 0 0],
    startMarker := some (ptJson 0 0 0), endMarker := some (ptJson 0 0 0),
    statsFor := some [ptJson 0 0 0], chartFor := some [ptJson 0 0 0],
    userPosition := some (0, 0, 5), distanceIndicator := some ((0 : ℝ) : WithTop ℝ),
    gpsWatching := true }

/-- C9 counterexample: with a live fix at the origin and an indicator
correctly showing distance 0 to the old track, successfully loading a
new track (the north pole) leaves the indicator at the stale value 0,
although the proximity of the fix to the new track's points is the
nonzero pole distance — so the load does not recompute the proximity
result. -/
theorem load_noRecompute_counterexample :
    sFix.userPosition = some (0, 0, 5) ∧
    getDistanceToTrail 0 0 (sFix.trackData.map jsonToPoint) = ((0 : ℝ) : WithTop ℝ) ∧
    (loadTrackData docNewTrack sFix).2.1 = .installed ∧
    (loadTrackData docNewTrack sFix).1.distanceIndicator = some ((0 : ℝ) : WithTop ℝ) ∧
    getDistanceToTrail 0 0 ((loadTrackData docNewTrack sFix).1.trackData.map jsonToPoint) ≠
      ((0 : ℝ) : WithTop ℝ) := by
  refine ⟨rfl, ?_, rfl, rfl, ?_⟩
  · rw [show sFix.trackData.map jsonToPoint = [⟨0, 0, 0⟩] from rfl,
      getDistanceToTrail_singleton]
    norm_num [haversineDistance_self]
  · rw [show ((loadTrackData docNewTrack sFix).1.trackData.map jsonToPoint) =
      [⟨90, 0, 0⟩] from rfl, getDistanceToTrail_singleton]
    intro hc
    rw [WithTop.coe_eq_coe] at hc
    norm_num [haversine_equator_pole, Real.pi_ne_zero] at hc

end HikingNav
